import Mathlib

/- Verification development for src/script/parseswe.py: a batch job compiler
that turns benchmark instance identifiers into per-job isolation shell
scripts plus one aggregate run-all script.

The external collaborators imported from the dzyswe module (the catalog
lookup behind sweall[...]["base_commit"], the identifier-to-repo-family map
reponame, and the identifier-to-checkout-path map repopath) are abstracted
as an environment of functions.  Filesystem effects (os.makedirs, file
writes, os.chmod) are modelled as an explicit trace of operations, and
Python exceptions (KeyError from dict indexing or str.format, IndexError
from list indexing) as Except values.  os.path.join is modelled as
slash-concatenation, which agrees with it on the relative, separator-free
components used here. -/

/-- Fragment of a Python format string: a run of literal text or a named
substitution placeholder. -/
inductive Frag where
  | lit : String → Frag
  | hole : String → Frag
deriving DecidableEq, Repr

/-- The opening brace character of a Python format placeholder. -/
def lbrace : Char := Char.ofNat 123

/-- The closing brace character of a Python format placeholder. -/
def rbrace : Char := Char.ofNat 125

/-- Prepend a character to a fragment list, merging it into a leading
literal fragment when there is one. -/
def consLit (c : Char) : List Frag → List Frag
  | Frag.lit s :: rest => Frag.lit (String.mk (c :: s.toList)) :: rest
  | fs => Frag.lit (String.mk [c]) :: fs

/-- Scanner for Python format strings.  The first argument is none while
scanning literal text, and some acc while inside a brace pair collecting the
placeholder name.  This covers the fragment of str.format syntax the program
uses: named placeholders without format specs, conversions, or brace
escapes. -/
def parseAux : Option (List Char) → List Char → List Frag
  | none, [] => []
  | none, c :: rest =>
      if c = lbrace then parseAux (some []) rest
      else consLit c (parseAux none rest)
  | some acc, [] => [Frag.lit (String.mk (lbrace :: acc.reverse))]
  | some acc, c :: rest =>
      if c = rbrace then Frag.hole (String.mk acc.reverse) :: parseAux none rest
      else parseAux (some (c :: acc)) rest

/-- Parse a Python format string into its fragments. -/
def parseFormat (s : String) : List Frag := parseAux none s.toList

/-- Python str.format(**d) over the parsed fragments: literals pass through,
each placeholder is looked up in the keyword dictionary, and a missing key
raises KeyError carrying the key - modelled as Except.error with the first
unresolvable placeholder name. -/
def strFormat (d : String → Option String) : List Frag → Except String String
  | [] => Except.ok ""
  | Frag.lit s :: rest => (strFormat d rest).map (fun t => s ++ t)
  | Frag.hole k :: rest =>
      match d k with
      | none => Except.error k
      | some v => (strFormat d rest).map (fun t => v ++ t)

/-- SCRIPT_TEMPLATE from parseswe.py, the per-job isolation script skeleton
(the triple-quoted string, newlines written as escapes). -/
def SCRIPT_TEMPLATE : String :=
  "#!/bin/bash\nset -e\n# jedi caching\nexport XDG_CACHE_HOME={outdir}/{instance_id}\nrm -rf {outdir}/{instance_id}/repo\ngit clone {repo_path} {outdir}/{instance_id}/repo\ncd {outdir}/{instance_id}/repo\ngit checkout {commit}\ncd -\necho Logs for {instance_id} is at {outdir}/{instance_id}/log.txt\n( {command} ) > {outdir}/{instance_id}/log.txt 2>&1\n"

/-- INCLUDE from parseswe.py: the static repo-family to include-path table,
as an association list in source order. -/
def INCLUDE : List (String × String) :=
  [("flask", "src"),
   ("matplotlib", "lib/matplotlib"),
   ("pytest", "src"),
   ("astropy", "astropy"),
   ("scikit-learn", "sklearn"),
   ("seaborn", "seaborn"),
   ("sympy", "sympy"),
   ("django", "django"),
   ("pylint", "pylint"),
   ("requests", "src"),
   ("sphinx", "sphinx"),
   ("xarray", "xarray")]

/-- Python dict indexing d[k]: the value when the key is present, KeyError
(none) otherwise. -/
def dictLookup (m : List (String × String)) (k : String) : Option String :=
  (m.find? (fun p => p.1 == k)).map (fun p => p.2)

/-- Python d.get(k, dflt). -/
def dictGet (m : List (String × String)) (k dflt : String) : String :=
  match m.find? (fun p => p.1 == k) with
  | some p => p.2
  | none => dflt

/-- The pylsp entry of DEFAULT_COMMAND_TEMPLATES in parseswe.py. -/
def pylspTemplate : String :=
  "./abcoder parse python {repo_path} -verbose -o {outdir}/{instance_id}.json -include {include_path} -lsp-cache-path {outdir}/{instance_id}/lsp_cache.json"

/-- The jedi entry of DEFAULT_COMMAND_TEMPLATES in parseswe.py. -/
def jediTemplate : String :=
  "./abcoder parse python {repo_path} -verbose -o {outdir}/{instance_id}.json -include {include_path} -lsp-cache-path {outdir}/{instance_id}/lsp_cache.json -lsp jedi-language-server -lsp-flags \x27--log-file {outdir}/{instance_id}/lsp.log -v\x27"

/-- DEFAULT_COMMAND_TEMPLATES from parseswe.py. -/
def DEFAULT_COMMAND_TEMPLATES : List (String × String) :=
  [("pylsp", pylspTemplate), ("jedi", jediTemplate)]

/-- The external collaborators from the dzyswe module, abstracted: sweall is
the catalog restricted to the one field the program reads, so sweall id is
some of info["base_commit"] when the identifier is in the catalog and none
when indexing would raise KeyError; reponame derives the repo family from
the identifier; repopath resolves the identifier to a local checkout
path. -/
structure Env where
  sweall : String → Option String
  reponame : String → String
  repopath : String → String

/-- One job descriptor, as built by compute_jobs. -/
structure Job where
  instance_id : String
  repo_path : String
  commit : String
deriving DecidableEq, Repr

/-- compute_jobs from parseswe.py: one descriptor per identifier, in input
order; the first identifier missing from the catalog raises (KeyError),
aborting with no descriptors produced. -/
def compute_jobs (env : Env) : List String → Except String (List Job)
  | [] => Except.ok []
  | id :: rest =>
      match env.sweall id with
      | none => Except.error id
      | some base_commit =>
          (compute_jobs env rest).map
            (fun js => { instance_id := id, repo_path := env.repopath id,
                         commit := base_commit } :: js)

/-- Filesystem operation performed during generation, in trace order. -/
inductive FsOp where
  | makedirs : String → FsOp
  | writeFile : String → String → FsOp
  | chmod : String → Nat → FsOp
deriving DecidableEq, Repr

/-- Error raised inside create_scripts: a KeyError from indexing INCLUDE
with an unknown repo family, or a KeyError from str.format hitting a
placeholder absent from the format dictionary. -/
inductive GenError where
  | includeMissing : String → GenError
  | unresolvedPlaceholder : String → GenError
deriving DecidableEq, Repr

/-- The format_dict built in create_scripts, as a keyword lookup. -/
def formatDict (repo_path commit include_path instance_id outdir : String) :
    String → Option String := fun k =>
  if k = "repo_path" then some repo_path
  else if k = "commit" then some commit
  else if k = "include_path" then some include_path
  else if k = "instance_id" then some instance_id
  else if k = "outdir" then some outdir
  else none

/-- The format_dict after the assignment format_dict["command"] = command. -/
def withCommand (d : String → Option String) (command : String) :
    String → Option String := fun k =>
  if k = "command" then some command else d k

/-- Concatenation of a list of strings, nested to the right the same way
strFormat assembles its output. -/
def catR : List String → String
  | [] => ""
  | s :: rest => s ++ catR rest

/-- The body of the create_scripts loop for one job, returning the
filesystem operations performed for that job and either the script path or
the error that aborted it.  The trace order follows the source: the INCLUDE
lookup happens before makedirs, the command template is rendered before the
script file is opened, and the outer skeleton is rendered after the file is
opened for writing (so a failure there would leave a truncated empty file -
a branch proved unreachable below). -/
def gen_one (env : Env) (outdir cmdArg : String) (job : Job) :
    List FsOp × Except GenError String :=
  let instance_dir := outdir ++ "/" ++ job.instance_id
  match dictLookup INCLUDE (env.reponame job.instance_id) with
  | none => ([], Except.error (GenError.includeMissing (env.reponame job.instance_id)))
  | some include_path =>
      let script_path := instance_dir ++ "/main.sh"
      let d := formatDict job.repo_path job.commit include_path job.instance_id outdir
      let command := dictGet DEFAULT_COMMAND_TEMPLATES cmdArg cmdArg
      match strFormat d (parseFormat command) with
      | Except.error k =>
          ([FsOp.makedirs instance_dir],
           Except.error (GenError.unresolvedPlaceholder k))
      | Except.ok cmd =>
          match strFormat (withCommand d cmd) (parseFormat SCRIPT_TEMPLATE) with
          | Except.error k =>
              ([FsOp.makedirs instance_dir, FsOp.writeFile script_path ""],
               Except.error (GenError.unresolvedPlaceholder k))
          | Except.ok content =>
              ([FsOp.makedirs instance_dir,
                FsOp.writeFile script_path content,
                FsOp.chmod script_path 493],
               Except.ok script_path)

/-- create_scripts from parseswe.py: processes jobs in order, accumulating
the filesystem trace; the first failing job aborts the loop, keeping the
operations already performed (there is no rollback). -/
def create_scripts (env : Env) (outdir cmdArg : String) :
    List Job → List FsOp × Except GenError (List String)
  | [] => ([], Except.ok [])
  | job :: rest =>
      match gen_one env outdir cmdArg job with
      | (ops, Except.error e) => (ops, Except.error e)
      | (ops, Except.ok p) =>
          match create_scripts env outdir cmdArg rest with
          | (ops2, r) => (ops ++ ops2, r.map (fun ps => p :: ps))

/-- The chunks written by the sequential for-loop of create_top_script, one
write per script path. -/
def seqWrites : List String → List String
  | [] => []
  | s :: rest => ("./" ++ s ++ "\n") :: seqWrites rest

/-- The chunks written by the parallel for-loop of create_top_script over
scripts[:-1], one continuation-line write per path. -/
def parWrites : List String → List String
  | [] => []
  | s :: rest => ("./" ++ s ++ " \\\n") :: parWrites rest

/-- The sequence of f.write chunks of create_top_script, in order, paired
with success or the IndexError that scripts[-1] raises on an empty list
after the header, echo, fan-out line, and the (then empty) loop have
already written their chunks. -/
def topWrites (parallel : Bool) (scripts : List String) :
    List String × Except String Unit :=
  if parallel then
    match scripts.getLast? with
    | none =>
        (["#!/bin/bash\nset -e\n", "echo Executing in parallel mode...\n",
          "parallel ::: \\\n"] ++ parWrites scripts.dropLast,
         Except.error "list index out of range")
    | some last =>
        (["#!/bin/bash\nset -e\n", "echo Executing in parallel mode...\n",
          "parallel ::: \\\n"] ++ parWrites scripts.dropLast
          ++ ["./" ++ last ++ "\n"],
         Except.ok ())
  else
    (["#!/bin/bash\nset -e\n"] ++ seqWrites scripts, Except.ok ())

/-- create_top_script from parseswe.py: writes outdir/run_all.sh from the
accumulated chunks; on success it is made executable and the command to run
it is printed (returned here as the ok value); on IndexError the partially
written file remains and no chmod happens. -/
def create_top_script (outdir : String) (parallel : Bool)
    (scripts : List String) : List FsOp × Except String String :=
  let path := outdir ++ "/run_all.sh"
  match topWrites parallel scripts with
  | (ws, Except.error e) => ([FsOp.writeFile path (catR ws)], Except.error e)
  | (ws, Except.ok _) =>
      ([FsOp.writeFile path (catR ws), FsOp.chmod path 493],
       Except.ok ("To run all jobs, execute: ./" ++ path))

/-- Batch-level error: the phase of main that raised. -/
inductive BatchError where
  | catalogMissing : String → BatchError
  | gen : GenError → BatchError
  | indexError : BatchError
deriving DecidableEq, Repr

/-- main from parseswe.py after argument parsing: compute_jobs, then
create_scripts, then create_top_script, each aborting the run on error with
the filesystem trace accumulated so far. -/
def runBatch (env : Env) (instance_ids : List String) (outdir cmdArg : String)
    (parallel : Bool) : List FsOp × Except BatchError (List String) :=
  match compute_jobs env instance_ids with
  | Except.error id => ([], Except.error (BatchError.catalogMissing id))
  | Except.ok jobs =>
      match create_scripts env outdir cmdArg jobs with
      | (ops, Except.error e) => (ops, Except.error (BatchError.gen e))
      | (ops, Except.ok scripts) =>
          match create_top_script outdir parallel scripts with
          | (ops2, Except.error _) =>
              (ops ++ ops2, Except.error BatchError.indexError)
          | (ops2, Except.ok _) => (ops ++ ops2, Except.ok scripts)

/-- The rendered per-job isolation script, written out as the concatenation
that results from substituting the format dictionary into
SCRIPT_TEMPLATE. -/
def scriptContent (outdir iid repo commit cmd : String) : String :=
  catR ["#!/bin/bash\nset -e\n# jedi caching\nexport XDG_CACHE_HOME=", outdir, "/", iid,
    "\nrm -rf ", outdir, "/", iid,
    "/repo\ngit clone ", repo, " ", outdir, "/", iid,
    "/repo\ncd ", outdir, "/", iid,
    "/repo\ngit checkout ", commit,
    "\ncd -\necho Logs for ", iid, " is at ", outdir, "/", iid,
    "/log.txt\n( ", cmd,
    " ) > ", outdir, "/", iid, "/log.txt 2>&1\n"]

/-- The rendered isolation script, line by line, each element one line of
the script including its terminating newline. -/
def scriptLines (outdir iid repo commit cmd : String) : List String :=
  ["#!/bin/bash\n",
   "set -e\n",
   "# jedi caching\n",
   "export XDG_CACHE_HOME=" ++ outdir ++ "/" ++ iid ++ "\n",
   "rm -rf " ++ outdir ++ "/" ++ iid ++ "/repo\n",
   "git clone " ++ repo ++ " " ++ outdir ++ "/" ++ iid ++ "/repo\n",
   "cd " ++ outdir ++ "/" ++ iid ++ "/repo\n",
   "git checkout " ++ commit ++ "\n",
   "cd -\n",
   "echo Logs for " ++ iid ++ " is at " ++ outdir ++ "/" ++ iid ++ "/log.txt\n",
   "( " ++ cmd ++ " ) > " ++ outdir ++ "/" ++ iid ++ "/log.txt 2>&1\n"]

/-- Substituting the full format dictionary (including the rendered command)
into SCRIPT_TEMPLATE always succeeds and yields scriptContent. -/
theorem substScript (r c ip iid od cmd : String) :
    strFormat (withCommand (formatDict r c ip iid od) cmd) (parseFormat SCRIPT_TEMPLATE)
      = Except.ok (scriptContent od iid r c cmd) := by
  rfl

/-- The rendered script is the concatenation of its lines. -/
theorem scriptContent_eq_lines (od iid r c cmd : String) :
    scriptContent od iid r c cmd = catR (scriptLines od iid r c cmd) := by
  simp only [scriptContent, scriptLines, catR, String.append_assoc]
  rfl

/-- The strings of the list occur, pairwise disjoint, in the given order
inside the subject string. -/
def containsInOrder : String → List String → Prop
  | _, [] => True
  | s, p :: ps => ∃ pre post, s = pre ++ (p ++ post) ∧ containsInOrder post ps

/-- Prefixing the subject preserves in-order containment. -/
theorem containsInOrder_append_left (s t : String) (ps : List String)
    (h : containsInOrder t ps) : containsInOrder (s ++ t) ps := by
  cases ps with
  | nil => trivial
  | cons p ps =>
      obtain ⟨pre, post, heq, hrest⟩ := h
      exact ⟨s ++ pre, post, by rw [heq, String.append_assoc], hrest⟩

/-- A sublist of a piece list occurs in order inside the concatenation of
all the pieces. -/
theorem containsInOrder_of_sublist (ps ls : List String)
    (h : List.Sublist ps ls) : containsInOrder (catR ls) ps := by
  induction h with
  | slnil => trivial
  | cons a _ ih => exact containsInOrder_append_left a _ _ ih
  | cons₂ a _ ih => exact ⟨"", catR _, rfl, ih⟩

/-- Mapping over an Except hits ok exactly when the argument was ok. -/
theorem except_map_ok {ε α β : Type} (f : α → β) (e : Except ε α) (b : β) :
    e.map f = Except.ok b ↔ ∃ a, e = Except.ok a ∧ b = f a := by
  cases e <;> simp [Except.map, eq_comm]

/-- The job descriptors carry exactly the input identifiers, in order. -/
theorem compute_jobs_ok_map (env : Env) (ids : List String) (jobs : List Job)
    (h : compute_jobs env ids = Except.ok jobs) :
    jobs.map (fun j => j.instance_id) = ids := by
  induction ids generalizing jobs with
  | nil =>
      simp only [compute_jobs] at h
      cases h
      rfl
  | cons id rest ih =>
      simp only [compute_jobs] at h
      cases hsw : env.sweall id with
      | none => rw [hsw] at h; exact absurd h (by simp)
      | some bc =>
          rw [hsw] at h
          rw [except_map_ok] at h
          obtain ⟨js, hjs, hj⟩ := h
          subst hj
          simp [ih js hjs]

/-- An identifier missing from the catalog makes compute_jobs raise. -/
theorem compute_jobs_err (env : Env) (ids : List String)
    (h : ∃ id ∈ ids, env.sweall id = none) :
    ∃ i, compute_jobs env ids = Except.error i := by
  induction ids with
  | nil => simp at h
  | cons id rest ih =>
      by_cases hsw : env.sweall id = none
      · exact ⟨id, by simp [compute_jobs, hsw]⟩
      · obtain ⟨i, hi, hnone⟩ := h
        rcases List.mem_cons.mp hi with rfl | hmem
        · exact absurd hnone hsw
        · obtain ⟨e, he⟩ := ih ⟨i, hmem, hnone⟩
          obtain ⟨bc, hbc⟩ := Option.ne_none_iff_exists'.mp hsw
          exact ⟨e, by simp [compute_jobs, hbc, he, Except.map]⟩

/-- A repo family absent from INCLUDE aborts the job before any filesystem
operation for it. -/
theorem gen_one_include_none (env : Env) (od cmdArg : String) (job : Job)
    (h : dictLookup INCLUDE (env.reponame job.instance_id) = none) :
    gen_one env od cmdArg job
      = ([], Except.error (GenError.includeMissing (env.reponame job.instance_id))) := by
  simp [gen_one, h]

/-- A command template with an unresolvable placeholder aborts the job after
its directory was created but before the script file is opened. -/
theorem gen_one_cmd_err (env : Env) (od cmdArg : String) (job : Job)
    (ip k : String)
    (hip : dictLookup INCLUDE (env.reponame job.instance_id) = some ip)
    (herr : strFormat (formatDict job.repo_path job.commit ip job.instance_id od)
        (parseFormat (dictGet DEFAULT_COMMAND_TEMPLATES cmdArg cmdArg))
      = Except.error k) :
    gen_one env od cmdArg job
      = ([FsOp.makedirs (od ++ "/" ++ job.instance_id)],
         Except.error (GenError.unresolvedPlaceholder k)) := by
  simp [gen_one, hip, herr]

/-- When the include lookup and the command rendering both succeed, gen_one
creates the job directory, writes the fully rendered script, and makes it
executable (0o755 = 493). -/
theorem gen_one_ok_eq (env : Env) (od cmdArg : String) (job : Job)
    (ip cmd : String)
    (hip : dictLookup INCLUDE (env.reponame job.instance_id) = some ip)
    (hcmd : strFormat (formatDict job.repo_path job.commit ip job.instance_id od)
        (parseFormat (dictGet DEFAULT_COMMAND_TEMPLATES cmdArg cmdArg))
      = Except.ok cmd) :
    gen_one env od cmdArg job
      = ([FsOp.makedirs (od ++ "/" ++ job.instance_id),
          FsOp.writeFile (od ++ "/" ++ job.instance_id ++ "/main.sh")
            (scriptContent od job.instance_id job.repo_path job.commit cmd),
          FsOp.chmod (od ++ "/" ++ job.instance_id ++ "/main.sh") 493],
         Except.ok (od ++ "/" ++ job.instance_id ++ "/main.sh")) := by
  simp [gen_one, hip, hcmd, substScript]

/-- Inversion: a successful gen_one has exactly the makedirs, write, chmod
trace, for the path outdir/instance_id/main.sh. -/
theorem gen_one_ok_inv (env : Env) (od cmdArg : String) (job : Job)
    (ops : List FsOp) (p : String)
    (h : gen_one env od cmdArg job = (ops, Except.ok p)) :
    ∃ cmd,
      ops = [FsOp.makedirs (od ++ "/" ++ job.instance_id),
             FsOp.writeFile (od ++ "/" ++ job.instance_id ++ "/main.sh")
               (scriptContent od job.instance_id job.repo_path job.commit cmd),
             FsOp.chmod (od ++ "/" ++ job.instance_id ++ "/main.sh") 493]
      ∧ p = od ++ "/" ++ job.instance_id ++ "/main.sh" := by
  cases hip : dictLookup INCLUDE (env.reponame job.instance_id) with
  | none =>
      rw [gen_one_include_none env od cmdArg job hip] at h
      simp at h
  | some ip =>
      cases hcmd : strFormat (formatDict job.repo_path job.commit ip job.instance_id od)
          (parseFormat (dictGet DEFAULT_COMMAND_TEMPLATES cmdArg cmdArg)) with
      | error k =>
          rw [gen_one_cmd_err env od cmdArg job ip k hip hcmd] at h
          simp at h
      | ok cmd =>
          rw [gen_one_ok_eq env od cmdArg job ip cmd hip hcmd] at h
          obtain ⟨h1, h2⟩ := Prod.mk.injEq _ _ _ _ ▸ h
          exact ⟨cmd, h1.symm, by cases h2; rfl⟩

/-- A successful create_scripts run yields one script path per job, in job
order, at outdir/instance_id/main.sh, each chmodded executable in the
trace. -/
theorem create_scripts_ok_paths (env : Env) (od cmdArg : String)
    (jobs : List Job) (ops : List FsOp) (scripts : List String)
    (h : create_scripts env od cmdArg jobs = (ops, Except.ok scripts)) :
    scripts = jobs.map (fun j => od ++ "/" ++ j.instance_id ++ "/main.sh")
    ∧ ∀ s ∈ scripts, FsOp.chmod s 493 ∈ ops ∧ ∃ c, FsOp.writeFile s c ∈ ops := by
  induction jobs generalizing ops scripts with
  | nil =>
      simp only [create_scripts] at h
      obtain ⟨h1, h2⟩ := Prod.mk.injEq _ _ _ _ ▸ h
      cases h2
      simp
  | cons job rest ih =>
      simp only [create_scripts] at h
      cases hg : gen_one env od cmdArg job with
      | mk ops1 r1 =>
          rw [hg] at h
          cases r1 with
          | error e => simp at h
          | ok p =>
              cases hc : create_scripts env od cmdArg rest with
              | mk ops2 r2 =>
                  rw [hc] at h
                  cases r2 with
                  | error e => simp [Except.map] at h
                  | ok ps =>
                      simp only [Except.map] at h
                      obtain ⟨hops, hs⟩ := Prod.mk.injEq _ _ _ _ ▸ h
                      cases hs
                      obtain ⟨cmd, hops1, hp⟩ := gen_one_ok_inv env od cmdArg job ops1 p hg
                      obtain ⟨hmap, hmem⟩ := ih ops2 ps hc
                      subst hops
                      constructor
                      · simp [hmap, hp]
                      · intro s hs'
                        rcases List.mem_cons.mp hs' with rfl | hmem'
                        · constructor
                          · exact List.mem_append_left _ (by rw [hops1, hp]; simp)
                          · exact ⟨scriptContent od job.instance_id job.repo_path job.commit cmd,
                              List.mem_append_left _ (by rw [hops1, hp]; simp)⟩
                        · obtain ⟨hch, c, hw⟩ := hmem s hmem'
                          exact ⟨List.mem_append_right _ hch, c, List.mem_append_right _ hw⟩

/-- Appending the empty string is the identity. -/
theorem append_empty_str (s : String) : s ++ "" = s := by
  cases s with
  | mk l => exact congrArg String.mk (List.append_nil l)

/-- C2: substitution is two-phase - the command template is rendered against
the job's dictionary first, and only the rendered command string is embedded
as the command key when the outer skeleton is substituted; in particular the
literal template echo-braces-commit produces a script embedding the job's
actual commit hash in the command line, not the placeholder text. -/
theorem two_phase_substitution (env : Env) (od cmdArg : String) (job : Job)
    (ip cmd : String)
    (hip : dictLookup INCLUDE (env.reponame job.instance_id) = some ip)
    (hcmd : strFormat (formatDict job.repo_path job.commit ip job.instance_id od)
        (parseFormat (dictGet DEFAULT_COMMAND_TEMPLATES cmdArg cmdArg))
      = Except.ok cmd) :
    gen_one env od cmdArg job
      = ([FsOp.makedirs (od ++ "/" ++ job.instance_id),
          FsOp.writeFile (od ++ "/" ++ job.instance_id ++ "/main.sh")
            (scriptContent od job.instance_id job.repo_path job.commit cmd),
          FsOp.chmod (od ++ "/" ++ job.instance_id ++ "/main.sh") 493],
         Except.ok (od ++ "/" ++ job.instance_id ++ "/main.sh"))
    ∧ gen_one env od "echo {commit}" job
      = ([FsOp.makedirs (od ++ "/" ++ job.instance_id),
          FsOp.writeFile (od ++ "/" ++ job.instance_id ++ "/main.sh")
            (scriptContent od job.instance_id job.repo_path job.commit
              ("echo " ++ job.commit)),
          FsOp.chmod (od ++ "/" ++ job.instance_id ++ "/main.sh") 493],
         Except.ok (od ++ "/" ++ job.instance_id ++ "/main.sh")) := by
  constructor
  · exact gen_one_ok_eq env od cmdArg job ip cmd hip hcmd
  · refine gen_one_ok_eq env od "echo {commit}" job ip ("echo " ++ job.commit) hip ?_
    have h0 : strFormat (formatDict job.repo_path job.commit ip job.instance_id od)
        (parseFormat (dictGet DEFAULT_COMMAND_TEMPLATES "echo {commit}" "echo {commit}"))
        = Except.ok ("echo " ++ (job.commit ++ "")) := rfl
    rw [h0, append_empty_str]

/-- C3: a command template with a placeholder missing from the job's format
dictionary fails that job with the offending key, and the trace shows no
script file was written for it - only the directory creation happened. -/
theorem unresolvable_placeholder_aborts_job (env : Env) (od cmdArg : String)
    (job : Job) (ip k : String)
    (hip : dictLookup INCLUDE (env.reponame job.instance_id) = some ip)
    (herr : strFormat (formatDict job.repo_path job.commit ip job.instance_id od)
        (parseFormat (dictGet DEFAULT_COMMAND_TEMPLATES cmdArg cmdArg))
      = Except.error k) :
    gen_one env od cmdArg job
      = ([FsOp.makedirs (od ++ "/" ++ job.instance_id)],
         Except.error (GenError.unresolvedPlaceholder k))
    ∧ ∀ p c, FsOp.writeFile p c ∉ (gen_one env od cmdArg job).1 := by
  have h := gen_one_cmd_err env od cmdArg job ip k hip herr
  refine ⟨h, ?_⟩
  rw [h]
  simp

/-- C4: template resolution returns the registered template for a registered
short name and the input string itself otherwise; no input is rejected. -/
theorem registry_never_rejects (s : String) :
    dictGet DEFAULT_COMMAND_TEMPLATES s s =
      if s = "pylsp" then pylspTemplate
      else if s = "jedi" then jediTemplate
      else s := by
  by_cases h1 : s = "pylsp"
  · subst h1; rfl
  · by_cases h2 : s = "jedi"
    · subst h2; rfl
    · have e1 : ("pylsp" == s) = false := by
        simp [beq_eq_false_iff_ne]; exact Ne.symm h1
      have e2 : ("jedi" == s) = false := by
        simp [beq_eq_false_iff_ne]; exact Ne.symm h2
      simp [dictGet, DEFAULT_COMMAND_TEMPLATES, List.find?, e1, e2, h1, h2]

/-- C9: script generation is deterministic - the per-job output, including
the script bytes, depends only on the job's identifier, repository path, and
commit, the derived repo family, the output directory, and the command
argument; two runs agreeing on those produce identical results. -/
theorem script_generation_deterministic (env1 env2 : Env) (od cmdArg : String)
    (job1 job2 : Job) (hj : job1 = job2)
    (hfam : env1.reponame job1.instance_id = env2.reponame job2.instance_id) :
    gen_one env1 od cmdArg job1 = gen_one env2 od cmdArg job2 := by
  cases hj
  simp only [gen_one, hfam]

/-- C5: the rendered isolation script contains, in order: the fail-fast
directive, the job-scoped cache directory assignment, deletion then a fresh
clone of the job's repository into the job-local repo subdirectory, checkout
of the pinned commit, the echo announcing the log location, and the embedded
command with stdout and stderr redirected into the job-local log. -/
theorem isolation_script_structure (env : Env) (od cmdArg : String)
    (job : Job) (ip cmd : String)
    (hip : dictLookup INCLUDE (env.reponame job.instance_id) = some ip)
    (hcmd : strFormat (formatDict job.repo_path job.commit ip job.instance_id od)
        (parseFormat (dictGet DEFAULT_COMMAND_TEMPLATES cmdArg cmdArg))
      = Except.ok cmd) :
    FsOp.writeFile (od ++ "/" ++ job.instance_id ++ "/main.sh")
        (scriptContent od job.instance_id job.repo_path job.commit cmd)
      ∈ (gen_one env od cmdArg job).1
    ∧ containsInOrder (scriptContent od job.instance_id job.repo_path job.commit cmd)
        ["set -e\n",
         "export XDG_CACHE_HOME=" ++ od ++ "/" ++ job.instance_id ++ "\n",
         "rm -rf " ++ od ++ "/" ++ job.instance_id ++ "/repo\n",
         "git clone " ++ job.repo_path ++ " " ++ od ++ "/" ++ job.instance_id ++ "/repo\n",
         "git checkout " ++ job.commit ++ "\n",
         "echo Logs for " ++ job.instance_id ++ " is at " ++ od ++ "/" ++ job.instance_id ++ "/log.txt\n",
         "( " ++ cmd ++ " ) > " ++ od ++ "/" ++ job.instance_id ++ "/log.txt 2>&1\n"] := by
  constructor
  · rw [gen_one_ok_eq env od cmdArg job ip cmd hip hcmd]
    simp
  · rw [scriptContent_eq_lines]
    refine containsInOrder_of_sublist _ _ ?_
    exact List.Sublist.cons _ (List.Sublist.cons₂ _ (List.Sublist.cons _
      (List.Sublist.cons₂ _ (List.Sublist.cons₂ _ (List.Sublist.cons₂ _
      (List.Sublist.cons _ (List.Sublist.cons₂ _ (List.Sublist.cons _
      (List.Sublist.cons₂ _ (List.Sublist.cons₂ _ List.Sublist.slnil))))))))))

/-- The sequential loop writes one line per script, in order. -/
theorem seqWrites_eq_map (l : List String) :
    seqWrites l = l.map (fun s => "./" ++ s ++ "\n") := by
  induction l with
  | nil => rfl
  | cons a l ih => simp [seqWrites, ih]

/-- The parallel loop writes one continuation line per script, in order. -/
theorem parWrites_eq_map (l : List String) :
    parWrites l = l.map (fun s => "./" ++ s ++ " \\\n") := by
  induction l with
  | nil => rfl
  | cons a l ih => simp [parWrites, ih]

/-- C6: a successful batch produces exactly one script per input identifier,
in input order and without deduplication, each at outdir/instance_id/main.sh,
each written and made executable. -/
theorem one_script_per_identifier (env : Env) (od cmdArg : String)
    (ids : List String) (jobs : List Job) (ops : List FsOp)
    (scripts : List String)
    (h1 : compute_jobs env ids = Except.ok jobs)
    (h2 : create_scripts env od cmdArg jobs = (ops, Except.ok scripts)) :
    scripts = ids.map (fun id => od ++ "/" ++ id ++ "/main.sh")
    ∧ scripts.length = ids.length
    ∧ ∀ s ∈ scripts, FsOp.chmod s 493 ∈ ops ∧ ∃ c, FsOp.writeFile s c ∈ ops := by
  obtain ⟨hmap, hmem⟩ := create_scripts_ok_paths env od cmdArg jobs ops scripts h2
  have hid := compute_jobs_ok_map env ids jobs h1
  have hscripts : scripts = ids.map (fun id => od ++ "/" ++ id ++ "/main.sh") := by
    rw [hmap, ← hid, List.map_map]
    rfl
  exact ⟨hscripts, by rw [hscripts]; simp, hmem⟩

/-- C7: the sequential aggregate script is the fail-fast header followed by
one line per script path, in input order, and is made executable; the path
to it is reported back. -/
theorem sequential_aggregate (od : String) (scripts : List String) :
    create_top_script od false scripts
      = ([FsOp.writeFile (od ++ "/run_all.sh")
            ("#!/bin/bash\nset -e\n" ++ catR (scripts.map (fun s => "./" ++ s ++ "\n"))),
          FsOp.chmod (od ++ "/run_all.sh") 493],
         Except.ok ("To run all jobs, execute: ./" ++ (od ++ "/run_all.sh"))) := by
  simp [create_top_script, topWrites, seqWrites_eq_map, catR]

/-- C8: on a non-empty script list the parallel aggregate script is the
fail-fast header, the parallel-mode echo, and a single fan-out invocation of
the external runner listing every script path in input order with no
concurrency cap, and it is made executable. -/
theorem parallel_aggregate (od : String) (scripts : List String)
    (h : scripts ≠ []) :
    create_top_script od true scripts
      = ([FsOp.writeFile (od ++ "/run_all.sh")
            (catR (["#!/bin/bash\nset -e\n", "echo Executing in parallel mode...\n",
                    "parallel ::: \\\n"]
              ++ scripts.dropLast.map (fun s => "./" ++ s ++ " \\\n")
              ++ ["./" ++ scripts.getLast h ++ "\n"])),
          FsOp.chmod (od ++ "/run_all.sh") 493],
         Except.ok ("To run all jobs, execute: ./" ++ (od ++ "/run_all.sh")))
    ∧ scripts.dropLast ++ [scripts.getLast h] = scripts := by
  have hl : scripts.getLast? = some (scripts.getLast h) :=
    List.getLast?_eq_getLast scripts h
  constructor
  · simp [create_top_script, topWrites, hl, parWrites_eq_map]
  · exact List.dropLast_append_getLast h

/-- C10: with at least one identifier supplied (the CLI requires one or
more), a batch that reaches the aggregator hands it a non-empty script list,
so the final-element indexing of parallel mode cannot fail. -/
theorem nonempty_batch_safe_last_index (env : Env) (od cmdArg : String)
    (ids : List String) (jobs : List Job) (ops : List FsOp)
    (scripts : List String)
    (hne : ids ≠ [])
    (h1 : compute_jobs env ids = Except.ok jobs)
    (h2 : create_scripts env od cmdArg jobs = (ops, Except.ok scripts)) :
    scripts ≠ []
    ∧ (create_top_script od true scripts).2
        = Except.ok ("To run all jobs, execute: ./" ++ (od ++ "/run_all.sh")) := by
  obtain ⟨hmap, _⟩ := create_scripts_ok_paths env od cmdArg jobs ops scripts h2
  have hid := compute_jobs_ok_map env ids jobs h1
  have hs : scripts ≠ [] := by
    rw [hmap]
    intro hc
    apply hne
    rw [← hid, List.map_eq_nil_iff.mp hc]
    rfl
  obtain ⟨last, hlast⟩ : ∃ x, scripts.getLast? = some x := by
    cases scripts with
    | nil => exact absurd rfl hs
    | cons a l => exact ⟨(a :: l).getLast (by simp), List.getLast?_eq_getLast _ (by simp)⟩
  refine ⟨hs, ?_⟩
  simp [create_top_script, topWrites, hlast]

/-- Test predicate: is this operation a file write to the given path. -/
def isWriteTo (p : String) : FsOp → Bool
  | FsOp.writeFile q _ => q == p
  | _ => false

/-- Concrete demonstration environment: two identifiers in the catalog with
repo families present in INCLUDE, one catalogued identifier whose family zzz
is absent from INCLUDE, and everything else absent from the catalog. -/
def demoEnv : Env where
  sweall := fun id =>
    if id = "flask__flask-1" then some "c0"
    else if id = "sympy__sympy-2" then some "c1"
    else if id = "zzz__zzz-3" then some "c2"
    else none
  reponame := fun id =>
    if id = "flask__flask-1" then "flask"
    else if id = "sympy__sympy-2" then "sympy"
    else "zzz"
  repopath := fun id => "/repos/" ++ id

/-- The job descriptor demoEnv resolves for flask__flask-1. -/
def demoJob : Job :=
  { instance_id := "flask__flask-1", repo_path := "/repos/flask__flask-1",
    commit := "c0" }

/-- The job descriptor demoEnv resolves for sympy__sympy-2. -/
def demoJob2 : Job :=
  { instance_id := "sympy__sympy-2", repo_path := "/repos/sympy__sympy-2",
    commit := "c1" }

/-- C1 counterexample: a batch whose second identifier has a repo family
absent from the Include Path Table fails, yet the first job's script has
already been written to disk - include-table resolution is not completed for
every job before generation begins. -/
theorem eager_planning_counterexample :
    (runBatch demoEnv ["flask__flask-1", "zzz__zzz-3"] "out" "jedi" false).2
      = Except.error (BatchError.gen (GenError.includeMissing "zzz"))
    ∧ ((runBatch demoEnv ["flask__flask-1", "zzz__zzz-3"] "out" "jedi" false).1.any
        (isWriteTo "out/flask__flask-1/main.sh")) = true := by
  constructor
  · rfl
  · rfl

/-- C1 amended: a catalog-absent identifier aborts the batch before any
filesystem operation (catalog resolution is eager, for all jobs, before
generation); an include-table miss aborts the batch at the failing job
before that job's own directory or script is created, though scripts already
generated for earlier jobs remain on disk. -/
theorem resolution_error_timing (env : Env) (ids : List String)
    (od cmdArg : String) (par : Bool) :
    ((∃ id ∈ ids, env.sweall id = none) →
        (runBatch env ids od cmdArg par).1 = []
        ∧ ∃ i, (runBatch env ids od cmdArg par).2
            = Except.error (BatchError.catalogMissing i))
    ∧ ∀ job : Job, dictLookup INCLUDE (env.reponame job.instance_id) = none →
        gen_one env od cmdArg job
          = ([], Except.error (GenError.includeMissing (env.reponame job.instance_id))) := by
  constructor
  · intro h
    obtain ⟨i, hi⟩ := compute_jobs_err env ids h
    exact ⟨by simp [runBatch, hi], i, by simp [runBatch, hi]⟩
  · intro job hj
    exact gen_one_include_none env od cmdArg job hj

/-- Alternate environment agreeing with demoEnv only on the repo family of
flask__flask-1, used to exhibit determinism. -/
def altEnv : Env where
  sweall := fun _ => none
  reponame := fun id => if id = "flask__flask-1" then "flask" else "other"
  repopath := fun _ => "/elsewhere"

/-- Witness for the amended C1 claim at concrete inputs. -/
theorem resolution_error_timing_witness :
    demoEnv.sweall "nocat" = none
    ∧ (runBatch demoEnv ["flask__flask-1", "nocat"] "out" "jedi" false).1 = []
    ∧ gen_one demoEnv "out" "jedi"
        { instance_id := "zzz__zzz-3", repo_path := "/repos/zzz__zzz-3", commit := "c2" }
        = ([], Except.error (GenError.includeMissing "zzz")) :=
  ⟨rfl,
   ((resolution_error_timing demoEnv ["flask__flask-1", "nocat"] "out" "jedi" false).1
      ⟨"nocat", by decide, rfl⟩).1,
   (resolution_error_timing demoEnv ["flask__flask-1", "nocat"] "out" "jedi" false).2
      { instance_id := "zzz__zzz-3", repo_path := "/repos/zzz__zzz-3", commit := "c2" } rfl⟩

/-- Witness for C2 at concrete inputs: the commit placeholder in the command
template comes out as the job's commit hash inside the written script. -/
theorem two_phase_substitution_witness :
    dictLookup INCLUDE (demoEnv.reponame demoJob.instance_id) = some "src"
    ∧ strFormat (formatDict demoJob.repo_path demoJob.commit "src" demoJob.instance_id "out")
        (parseFormat (dictGet DEFAULT_COMMAND_TEMPLATES "echo {commit}" "echo {commit}"))
      = Except.ok "echo c0"
    ∧ gen_one demoEnv "out" "echo {commit}" demoJob
      = ([FsOp.makedirs "out/flask__flask-1",
          FsOp.writeFile "out/flask__flask-1/main.sh"
            (scriptContent "out" "flask__flask-1" "/repos/flask__flask-1" "c0" "echo c0"),
          FsOp.chmod "out/flask__flask-1/main.sh" 493],
         Except.ok "out/flask__flask-1/main.sh") :=
  ⟨rfl, rfl,
   (two_phase_substitution demoEnv "out" "echo {commit}" demoJob "src" "echo c0" rfl rfl).2⟩

/-- Witness for C3 at concrete inputs: a template with an unknown
placeholder aborts the job with that key after only the makedirs. -/
theorem unresolvable_placeholder_aborts_job_witness :
    dictLookup INCLUDE (demoEnv.reponame demoJob.instance_id) = some "src"
    ∧ strFormat (formatDict demoJob.repo_path demoJob.commit "src" demoJob.instance_id "out")
        (parseFormat (dictGet DEFAULT_COMMAND_TEMPLATES "echo {nope}" "echo {nope}"))
      = Except.error "nope"
    ∧ gen_one demoEnv "out" "echo {nope}" demoJob
      = ([FsOp.makedirs "out/flask__flask-1"],
         Except.error (GenError.unresolvedPlaceholder "nope")) :=
  ⟨rfl, rfl,
   (unresolvable_placeholder_aborts_job demoEnv "out" "echo {nope}" demoJob "src" "nope"
      rfl rfl).1⟩

/-- Witness for C5 at concrete inputs: the rendered script for demoJob
contains the required lines in order. -/
theorem isolation_script_structure_witness :
    containsInOrder
      (scriptContent "out" "flask__flask-1" "/repos/flask__flask-1" "c0" "echo c0")
      ["set -e\n",
       "export XDG_CACHE_HOME=out/flask__flask-1\n",
       "rm -rf out/flask__flask-1/repo\n",
       "git clone /repos/flask__flask-1 out/flask__flask-1/repo\n",
       "git checkout c0\n",
       "echo Logs for flask__flask-1 is at out/flask__flask-1/log.txt\n",
       "( echo c0 ) > out/flask__flask-1/log.txt 2>&1\n"] :=
  (isolation_script_structure demoEnv "out" "echo {commit}" demoJob "src" "echo c0"
    rfl rfl).2

/-- Witness for C9 at concrete inputs: two environments that agree on the
job's repo family produce identical generation results. -/
theorem script_generation_deterministic_witness :
    demoEnv.reponame demoJob.instance_id = altEnv.reponame demoJob.instance_id
    ∧ gen_one demoEnv "out" "jedi" demoJob = gen_one altEnv "out" "jedi" demoJob :=
  ⟨rfl,
   script_generation_deterministic demoEnv altEnv "out" "jedi" demoJob demoJob rfl rfl⟩

/-- Witness for C6 at concrete inputs: two identifiers produce exactly the
two expected script paths, in order, both chmodded in the trace. -/
theorem one_script_per_identifier_witness :
    compute_jobs demoEnv ["flask__flask-1", "sympy__sympy-2"]
        = Except.ok [demoJob, demoJob2]
    ∧ create_scripts demoEnv "out" "true" [demoJob, demoJob2]
        = ((create_scripts demoEnv "out" "true" [demoJob, demoJob2]).1,
           Except.ok ["out/flask__flask-1/main.sh", "out/sympy__sympy-2/main.sh"])
    ∧ FsOp.chmod "out/flask__flask-1/main.sh" 493
        ∈ (create_scripts demoEnv "out" "true" [demoJob, demoJob2]).1
    ∧ FsOp.chmod "out/sympy__sympy-2/main.sh" 493
        ∈ (create_scripts demoEnv "out" "true" [demoJob, demoJob2]).1 :=
  ⟨rfl, rfl,
   ((one_script_per_identifier demoEnv "out" "true" ["flask__flask-1", "sympy__sympy-2"]
      [demoJob, demoJob2]
      (create_scripts demoEnv "out" "true" [demoJob, demoJob2]).1
      ["out/flask__flask-1/main.sh", "out/sympy__sympy-2/main.sh"]
      rfl rfl).2.2 "out/flask__flask-1/main.sh" (by decide)).1,
   ((one_script_per_identifier demoEnv "out" "true" ["flask__flask-1", "sympy__sympy-2"]
      [demoJob, demoJob2]
      (create_scripts demoEnv "out" "true" [demoJob, demoJob2]).1
      ["out/flask__flask-1/main.sh", "out/sympy__sympy-2/main.sh"]
      rfl rfl).2.2 "out/sympy__sympy-2/main.sh" (by decide)).1⟩

/-- Witness for C8 at concrete inputs: three scripts give one fan-out
invocation listing all three in order. -/
theorem parallel_aggregate_witness :
    (["a", "b", "c"] : List String) ≠ []
    ∧ create_top_script "out" true ["a", "b", "c"]
      = ([FsOp.writeFile "out/run_all.sh"
            "#!/bin/bash\nset -e\necho Executing in parallel mode...\nparallel ::: \\\n./a \\\n./b \\\n./c\n",
          FsOp.chmod "out/run_all.sh" 493],
         Except.ok "To run all jobs, execute: ./out/run_all.sh") :=
  ⟨by decide, (parallel_aggregate "out" ["a", "b", "c"] (by decide)).1⟩

/-- Witness for C10 at concrete inputs: a two-identifier batch hands the
aggregator a non-empty list and parallel aggregation succeeds. -/
theorem nonempty_batch_safe_last_index_witness :
    (["flask__flask-1", "sympy__sympy-2"] : List String) ≠ []
    ∧ (["out/flask__flask-1/main.sh", "out/sympy__sympy-2/main.sh"] : List String) ≠ []
    ∧ (create_top_script "out" true
          ["out/flask__flask-1/main.sh", "out/sympy__sympy-2/main.sh"]).2
        = Except.ok "To run all jobs, execute: ./out/run_all.sh" :=
  ⟨by decide,
   (nonempty_batch_safe_last_index demoEnv "out" "true"
      ["flask__flask-1", "sympy__sympy-2"] [demoJob, demoJob2]
      (create_scripts demoEnv "out" "true" [demoJob, demoJob2]).1
      ["out/flask__flask-1/main.sh", "out/sympy__sympy-2/main.sh"]
      (by decide) rfl rfl).1,
   (nonempty_batch_safe_last_index demoEnv "out" "true"
      ["flask__flask-1", "sympy__sympy-2"] [demoJob, demoJob2]
      (create_scripts demoEnv "out" "true" [demoJob, demoJob2]).1
      ["out/flask__flask-1/main.sh", "out/sympy__sympy-2/main.sh"]
      (by decide) rfl rfl).2⟩
